import Mathlib

/-!
Shallow embedding of the lyra-registry trust-scoring algorithm
(`src/lib/calculateScore.ts`), the scoring paths of the tool API route
handlers (`src/app/api/tools/route.ts`, `src/app/api/tools/[id]/route.ts`),
and the trending ranker (`src/app/api/trending/route.ts`), together with
theorems settling the specification claims about them.

Conventions of the embedding:
* JavaScript numbers are modelled as `Nat`/`Int` where the program only
  ever holds integers, and as `ℚ` where the program computes fractional
  values (the two percentage intermediates).
* `Math.round` is modelled as `⌊q + 1/2⌋` (round half toward +∞), which is
  exactly JavaScript's `Math.round` on exact values.
* `Boolean(x)` on an optional boolean field is `Option.getD · false`.
* `x || d` on numbers is modelled field-faithfully via `jsWeight`/`jsOrZero`.
* Objects with string keys iterated by `Object.entries` are modelled as
  association lists in insertion order (the iteration order JavaScript
  guarantees for non-numeric string keys).
-/

namespace LyraRegistry

/-- The three letter grades of `ScoreResult['grade']` in calculateScore.ts. -/
inductive Grade where
  | a
  | b
  | f
deriving DecidableEq, Repr

/-- `ScoreItem` from calculateScore.ts: `required` omitted means `false`. -/
structure ScoreItem where
  check : Bool
  required : Bool := false
deriving DecidableEq, Repr

/-- `ScoreResult` from calculateScore.ts. The two percentage fields hold the
`Math.round`ed values the function returns. -/
structure ScoreResult where
  grade : Grade
  maxRequiredScore : Nat
  maxScore : Nat
  percentage : Int
  requiredPercentage : Int
  requiredScore : Nat
  totalScore : Nat
deriving DecidableEq, Repr

/-- `ScoreFlags` from calculateScore.ts. -/
structure ScoreFlags where
  hasClaimed : Bool
  hasDeployMoreThanManual : Bool
  hasDeployment : Bool
  hasLicense : Bool
  hasPrompts : Bool
  hasReadme : Bool
  hasResources : Bool
  hasTools : Bool
  hasValidated : Bool
deriving DecidableEq, Repr

/-- The raw partial tool data accepted by `calculateScoreFlags` /
`calculateToolScore`: every flag may be absent (`undefined`). -/
structure ToolScoreData where
  isValidated : Option Bool := none
  hasTools : Option Bool := none
  hasDeployment : Option Bool := none
  hasDeployMoreThanManual : Option Bool := none
  hasReadme : Option Bool := none
  hasLicense : Option Bool := none
  hasPrompts : Option Bool := none
  hasResources : Option Bool := none
  isClaimed : Option Bool := none
deriving DecidableEq, Repr

/-- `DEFAULT_WEIGHTS` from calculateScore.ts, as a partial map on keys. -/
def DEFAULT_WEIGHTS : String → Option Nat
  | "validated" => some 20
  | "tools" => some 15
  | "deployment" => some 15
  | "deployMoreThanManual" => some 12
  | "readme" => some 10
  | "license" => some 8
  | "prompts" => some 8
  | "resources" => some 8
  | "claimed" => some 4
  | _ => none

/-- The lookup `weights[key] || 5` of calculateScore.ts: an absent key, and
also a weight of 0 (JavaScript falsy), fall back to the default weight 5. -/
def jsWeight (weights : String → Option Nat) (key : String) : Nat :=
  match weights key with
  | some w => if w = 0 then 5 else w
  | none => 5

/-- JavaScript `Boolean(x)` on an optional boolean: `undefined` is falsy. -/
def jsBoolean (b : Option Bool) : Bool := b.getD false

/-- JavaScript `Math.round` on an exact rational: round half toward +∞. -/
def jsRound (q : ℚ) : Int := ⌊q + 1 / 2⌋

/-- `calculateScoreFlags` from calculateScore.ts. -/
def calculateScoreFlags (data : ToolScoreData) : ScoreFlags :=
  { hasValidated := jsBoolean data.isValidated
    hasTools := jsBoolean data.hasTools
    hasDeployment := jsBoolean data.hasDeployment
    hasDeployMoreThanManual := jsBoolean data.hasDeployMoreThanManual
    hasReadme := jsBoolean data.hasReadme
    hasLicense := jsBoolean data.hasLicense
    hasPrompts := jsBoolean data.hasPrompts
    hasResources := jsBoolean data.hasResources
    hasClaimed := jsBoolean data.isClaimed }

/-- `createScoreItems` from calculateScore.ts, in object-literal insertion
order (the order `Object.entries` iterates). -/
def createScoreItems (flags : ScoreFlags) : List (String × ScoreItem) :=
  [("validated", { check := flags.hasValidated, required := true }),
   ("tools", { check := flags.hasTools, required := true }),
   ("deployment", { check := flags.hasDeployment, required := true }),
   ("readme", { check := flags.hasReadme, required := true }),
   ("deployMoreThanManual", { check := flags.hasDeployMoreThanManual }),
   ("license", { check := flags.hasLicense }),
   ("prompts", { check := flags.hasPrompts }),
   ("resources", { check := flags.hasResources }),
   ("claimed", { check := flags.hasClaimed })]

/-- The accumulator step of the `Object.entries(items).forEach` loop in
`calculateScore`: `(totalScore, maxScore, requiredScore, maxRequiredScore)`. -/
def scoreStep (weights : String → Option Nat) (acc : Nat × Nat × Nat × Nat)
    (kv : String × ScoreItem) : Nat × Nat × Nat × Nat :=
  let weight := jsWeight weights kv.1
  let totalScore := if kv.2.check then acc.1 + weight else acc.1
  let maxScore := acc.2.1 + weight
  let requiredScore :=
    if kv.2.required && kv.2.check then acc.2.2.1 + weight else acc.2.2.1
  let maxRequiredScore :=
    if kv.2.required then acc.2.2.2 + weight else acc.2.2.2
  (totalScore, maxScore, requiredScore, maxRequiredScore)

/-- `calculateScore` from calculateScore.ts. The TypeScript default for the
`weights` parameter is `DEFAULT_WEIGHTS`; callers here pass it explicitly. -/
def calculateScore (items : List (String × ScoreItem))
    (weights : String → Option Nat) : ScoreResult :=
  let acc := items.foldl (scoreStep weights) (0, 0, 0, 0)
  let totalScore := acc.1
  let maxScore := acc.2.1
  let requiredScore := acc.2.2.1
  let maxRequiredScore := acc.2.2.2
  let percentage : ℚ :=
    if 0 < maxScore then ((totalScore : ℚ) / (maxScore : ℚ)) * 100 else 0
  let requiredPercentage : ℚ :=
    if 0 < maxRequiredScore then
      ((requiredScore : ℚ) / (maxRequiredScore : ℚ)) * 100
    else 0
  let grade : Grade :=
    if requiredPercentage < 100 then .f
    else if 80 ≤ percentage then .a
    else if 60 ≤ percentage then .b
    else .f
  { grade := grade
    maxRequiredScore := maxRequiredScore
    maxScore := maxScore
    percentage := jsRound percentage
    requiredPercentage := jsRound requiredPercentage
    requiredScore := requiredScore
    totalScore := totalScore }

/-- `calculateToolScore` from calculateScore.ts. -/
def calculateToolScore (tool : ToolScoreData) : ScoreResult :=
  calculateScore (createScoreItems (calculateScoreFlags tool)) DEFAULT_WEIGHTS

/-- A fully-specified tool-data payload: all nine flags present, in the
field order of the `calculateToolScore` parameter type. -/
def fullInput (v t d m r l p s c : Bool) : ToolScoreData :=
  { isValidated := some v
    hasTools := some t
    hasDeployment := some d
    hasDeployMoreThanManual := some m
    hasReadme := some r
    hasLicense := some l
    hasPrompts := some p
    hasResources := some s
    isClaimed := some c }

/-! ### A `Nat`-level characterization of the scoring engine

`calculateScore` computes its two percentages in exact rational arithmetic.
The lemmas below discharge that arithmetic once and for all, giving a purely
natural-number description `scoreSpec` of `calculateToolScore` on
fully-specified inputs; the claims are then settled against `scoreSpec` by
exhaustive evaluation.  Flag-argument order throughout is the parameter
order of `calculateToolScore`:
validated, tools, deployment, deployMoreThanManual, readme, license,
prompts, resources, claimed. -/

/-- Sum of the `DEFAULT_WEIGHTS` of the flags that are set. -/
def totalWeight (v t d m r l p s c : Bool) : Nat :=
  (if v then 20 else 0) + (if t then 15 else 0) + (if d then 15 else 0) +
  (if m then 12 else 0) + (if r then 10 else 0) + (if l then 8 else 0) +
  (if p then 8 else 0) + (if s then 8 else 0) + (if c then 4 else 0)

/-- Sum of the `DEFAULT_WEIGHTS` of the required flags that are set. -/
def requiredWeight (v t d r : Bool) : Nat :=
  (if v then 20 else 0) + (if t then 15 else 0) + (if d then 15 else 0) +
  (if r then 10 else 0)

/-- The `Nat`-level value of `calculateToolScore` on a fully-specified
payload (all divisions eliminated; `Math.round (100 * R / 60)` becomes the
integer division `(10 * R + 3) / 6`). -/
def scoreSpec (v t d m r l p s c : Bool) : ScoreResult :=
  let T := totalWeight v t d m r l p s c
  let R := requiredWeight v t d r
  { grade := if R < 60 then .f else if 80 ≤ T then .a else if 60 ≤ T then .b else .f
    maxRequiredScore := 60
    maxScore := 100
    percentage := (T : Int)
    requiredPercentage := (((10 * R + 3) / 6 : Nat) : Int)
    requiredScore := R
    totalScore := T }

/-- The `forEach` accumulator of `calculateScore`, evaluated exhaustively on
the nine concrete items produced by `createScoreItems`. -/
theorem scoreAcc_eq : ∀ v t d m r l p s c : Bool,
    (createScoreItems (calculateScoreFlags (fullInput v t d m r l p s c))).foldl
        (scoreStep DEFAULT_WEIGHTS) (0, 0, 0, 0) =
      (totalWeight v t d m r l p s c, 100, requiredWeight v t d r, 60) := by
  decide

theorem jsRound_natCast (n : ℕ) : jsRound (n : ℚ) = (n : Int) := by
  unfold jsRound
  rw [show ((n : ℚ) + 1 / 2) = (((2 * n + 1 : ℕ) : ℚ)) / ((2 : ℕ) : ℚ) by
    push_cast; ring]
  rw [Rat.floor_natCast_div_natCast]
  omega

theorem qdiv_hundred (n : ℕ) : ((n : ℚ) / ((100 : ℕ) : ℚ)) * 100 = (n : ℚ) := by
  push_cast
  field_simp

theorem jsRound_div60 (R : ℕ) :
    jsRound (((R : ℚ) / ((60 : ℕ) : ℚ)) * 100) = (((10 * R + 3) / 6 : ℕ) : Int) := by
  unfold jsRound
  rw [show (((R : ℚ) / ((60 : ℕ) : ℚ)) * 100 + 1 / 2)
        = (((10 * R + 3 : ℕ) : ℚ)) / ((6 : ℕ) : ℚ) by push_cast; field_simp; ring]
  rw [Rat.floor_natCast_div_natCast]
  omega

theorem div60_lt_100_iff (R : ℕ) :
    ((R : ℚ) / ((60 : ℕ) : ℚ)) * 100 < 100 ↔ R < 60 := by
  rw [div_mul_eq_mul_div, div_lt_iff₀ (by norm_num)]
  norm_cast
  omega

theorem cast_le_80_iff (T : ℕ) : (80 : ℚ) ≤ (T : ℚ) ↔ 80 ≤ T := by
  exact_mod_cast Iff.rfl

theorem cast_le_60_iff (T : ℕ) : (60 : ℚ) ≤ (T : ℚ) ↔ 60 ≤ T := by
  exact_mod_cast Iff.rfl

/-- Master characterization: on any fully-specified payload,
`calculateToolScore` equals the `Nat`-level `scoreSpec`. -/
theorem calculateToolScore_fullInput (v t d m r l p s c : Bool) :
    calculateToolScore (fullInput v t d m r l p s c) = scoreSpec v t d m r l p s c := by
  unfold calculateToolScore calculateScore
  rw [scoreAcc_eq]
  dsimp only
  rw [if_pos (by norm_num : (0 : ℕ) < 100), if_pos (by norm_num : (0 : ℕ) < 60)]
  rw [qdiv_hundred]
  simp only [div60_lt_100_iff, cast_le_80_iff, cast_le_60_iff,
    jsRound_natCast, jsRound_div60]
  unfold scoreSpec totalWeight requiredWeight
  simp only [ScoreResult.mk.injEq]

/-! ### Claims about the scoring engine -/

/-- C1: for every one of the 512 boolean combinations of the 9 quality
flags, `calculateToolScore` returns grade `f` whenever any of the four
required flags (validated, hasTools, hasDeployment, hasReadme) is false,
and returns grade `a` or `b` only when all four required flags are true. -/
theorem claim_C1_required_gate :
    ∀ v t d m r l p s c : Bool,
      ((v && t && d && r) = false →
        (calculateToolScore (fullInput v t d m r l p s c)).grade = Grade.f) ∧
      ((calculateToolScore (fullInput v t d m r l p s c)).grade = Grade.a ∨
         (calculateToolScore (fullInput v t d m r l p s c)).grade = Grade.b →
        v = true ∧ t = true ∧ d = true ∧ r = true) := by
  have h : ∀ v t d m r l p s c : Bool,
      ((v && t && d && r) = false → (scoreSpec v t d m r l p s c).grade = Grade.f) ∧
      ((scoreSpec v t d m r l p s c).grade = Grade.a ∨
         (scoreSpec v t d m r l p s c).grade = Grade.b →
        v = true ∧ t = true ∧ d = true ∧ r = true) := by decide
  intro v t d m r l p s c
  simpa only [calculateToolScore_fullInput] using h v t d m r l p s c

/-- Witness for C1 at a concrete input: validated is false, so the grade
is `f`. -/
theorem claim_C1_required_gate_witness :
    (false && true && true && true) = false ∧
      (calculateToolScore (fullInput false true true true true true true true true)).grade
        = Grade.f :=
  ⟨by decide,
    (claim_C1_required_gate false true true true true true true true true).1 (by decide)⟩

/-- C2: the grade is decided in this order: if requiredPercentage < 100 the
grade is `f` regardless of total percentage; otherwise the grade is `a` when
percentage ≥ 80, `b` when 60 ≤ percentage < 80, and `f` when
percentage < 60 (stated on the fields `calculateToolScore` returns). -/
theorem claim_C2_grade_decision_order :
    ∀ v t d m r l p s c : Bool,
      ((calculateToolScore (fullInput v t d m r l p s c)).requiredPercentage < 100 →
        (calculateToolScore (fullInput v t d m r l p s c)).grade = Grade.f) ∧
      (¬ (calculateToolScore (fullInput v t d m r l p s c)).requiredPercentage < 100 →
        (80 ≤ (calculateToolScore (fullInput v t d m r l p s c)).percentage →
          (calculateToolScore (fullInput v t d m r l p s c)).grade = Grade.a) ∧
        (60 ≤ (calculateToolScore (fullInput v t d m r l p s c)).percentage ∧
            (calculateToolScore (fullInput v t d m r l p s c)).percentage < 80 →
          (calculateToolScore (fullInput v t d m r l p s c)).grade = Grade.b) ∧
        ((calculateToolScore (fullInput v t d m r l p s c)).percentage < 60 →
          (calculateToolScore (fullInput v t d m r l p s c)).grade = Grade.f)) := by
  have h : ∀ v t d m r l p s c : Bool,
      ((scoreSpec v t d m r l p s c).requiredPercentage < 100 →
        (scoreSpec v t d m r l p s c).grade = Grade.f) ∧
      (¬ (scoreSpec v t d m r l p s c).requiredPercentage < 100 →
        (80 ≤ (scoreSpec v t d m r l p s c).percentage →
          (scoreSpec v t d m r l p s c).grade = Grade.a) ∧
        (60 ≤ (scoreSpec v t d m r l p s c).percentage ∧
            (scoreSpec v t d m r l p s c).percentage < 80 →
          (scoreSpec v t d m r l p s c).grade = Grade.b) ∧
        ((scoreSpec v t d m r l p s c).percentage < 60 →
          (scoreSpec v t d m r l p s c).grade = Grade.f)) := by decide
  intro v t d m r l p s c
  simpa only [calculateToolScore_fullInput] using h v t d m r l p s c

/-- Witness for C2 at the all-true input: requiredPercentage is 100 and
percentage is 100, so the grade is `a`. -/
theorem claim_C2_grade_decision_order_witness :
    ¬ (calculateToolScore (fullInput true true true true true true true true true)).requiredPercentage
        < 100 ∧
      (calculateToolScore (fullInput true true true true true true true true true)).grade
        = Grade.a := by
  have hr : ¬ (calculateToolScore
      (fullInput true true true true true true true true true)).requiredPercentage < 100 := by
    rw [calculateToolScore_fullInput]; decide
  have hp : 80 ≤ (calculateToolScore
      (fullInput true true true true true true true true true)).percentage := by
    rw [calculateToolScore_fullInput]; decide
  exact ⟨hr,
    ((claim_C2_grade_decision_order true true true true true true true true true).2 hr).1 hp⟩

/-- C3: for every combination of the 9 flags, totalScore equals the sum of
the fixed weights (validated 20, hasTools 15, hasDeployment 15,
hasDeployMoreThanManual 12, hasReadme 10, hasLicense 8, hasPrompts 8,
hasResources 8, claimed 4) of the flags that are true, and maxScore is 100
independent of which flags are set. -/
theorem claim_C3_weight_sums :
    ∀ v t d m r l p s c : Bool,
      (calculateToolScore (fullInput v t d m r l p s c)).totalScore =
        (if v then 20 else 0) + (if t then 15 else 0) + (if d then 15 else 0) +
        (if m then 12 else 0) + (if r then 10 else 0) + (if l then 8 else 0) +
        (if p then 8 else 0) + (if s then 8 else 0) + (if c then 4 else 0) ∧
      (calculateToolScore (fullInput v t d m r l p s c)).maxScore = 100 := by
  have h : ∀ v t d m r l p s c : Bool,
      (scoreSpec v t d m r l p s c).totalScore =
        (if v then 20 else 0) + (if t then 15 else 0) + (if d then 15 else 0) +
        (if m then 12 else 0) + (if r then 10 else 0) + (if l then 8 else 0) +
        (if p then 8 else 0) + (if s then 8 else 0) + (if c then 4 else 0) ∧
      (scoreSpec v t d m r l p s c).maxScore = 100 := by decide
  intro v t d m r l p s c
  simpa only [calculateToolScore_fullInput] using h v t d m r l p s c

/-- C5: flipping any single flag from false to true while holding the other
8 fixed never decreases the totalScore or the percentage returned by
`calculateToolScore` (one conjunct per flag, totalScore and percentage). -/
theorem claim_C5_monotonicity :
    ∀ v t d m r l p s c : Bool,
      ((calculateToolScore (fullInput false t d m r l p s c)).totalScore ≤
          (calculateToolScore (fullInput true t d m r l p s c)).totalScore ∧
        (calculateToolScore (fullInput false t d m r l p s c)).percentage ≤
          (calculateToolScore (fullInput true t d m r l p s c)).percentage) ∧
      ((calculateToolScore (fullInput v false d m r l p s c)).totalScore ≤
          (calculateToolScore (fullInput v true d m r l p s c)).totalScore ∧
        (calculateToolScore (fullInput v false d m r l p s c)).percentage ≤
          (calculateToolScore (fullInput v true d m r l p s c)).percentage) ∧
      ((calculateToolScore (fullInput v t false m r l p s c)).totalScore ≤
          (calculateToolScore (fullInput v t true m r l p s c)).totalScore ∧
        (calculateToolScore (fullInput v t false m r l p s c)).percentage ≤
          (calculateToolScore (fullInput v t true m r l p s c)).percentage) ∧
      ((calculateToolScore (fullInput v t d false r l p s c)).totalScore ≤
          (calculateToolScore (fullInput v t d true r l p s c)).totalScore ∧
        (calculateToolScore (fullInput v t d false r l p s c)).percentage ≤
          (calculateToolScore (fullInput v t d true r l p s c)).percentage) ∧
      ((calculateToolScore (fullInput v t d m false l p s c)).totalScore ≤
          (calculateToolScore (fullInput v t d m true l p s c)).totalScore ∧
        (calculateToolScore (fullInput v t d m false l p s c)).percentage ≤
          (calculateToolScore (fullInput v t d m true l p s c)).percentage) ∧
      ((calculateToolScore (fullInput v t d m r false p s c)).totalScore ≤
          (calculateToolScore (fullInput v t d m r true p s c)).totalScore ∧
        (calculateToolScore (fullInput v t d m r false p s c)).percentage ≤
          (calculateToolScore (fullInput v t d m r true p s c)).percentage) ∧
      ((calculateToolScore (fullInput v t d m r l false s c)).totalScore ≤
          (calculateToolScore (fullInput v t d m r l true s c)).totalScore ∧
        (calculateToolScore (fullInput v t d m r l false s c)).percentage ≤
          (calculateToolScore (fullInput v t d m r l true s c)).percentage) ∧
      ((calculateToolScore (fullInput v t d m r l p false c)).totalScore ≤
          (calculateToolScore (fullInput v t d m r l p true c)).totalScore ∧
        (calculateToolScore (fullInput v t d m r l p false c)).percentage ≤
          (calculateToolScore (fullInput v t d m r l p true c)).percentage) ∧
      ((calculateToolScore (fullInput v t d m r l p s false)).totalScore ≤
          (calculateToolScore (fullInput v t d m r l p s true)).totalScore ∧
        (calculateToolScore (fullInput v t d m r l p s false)).percentage ≤
          (calculateToolScore (fullInput v t d m r l p s true)).percentage) := by
  have h : ∀ v t d m r l p s c : Bool,
      ((scoreSpec false t d m r l p s c).totalScore ≤
          (scoreSpec true t d m r l p s c).totalScore ∧
        (scoreSpec false t d m r l p s c).percentage ≤
          (scoreSpec true t d m r l p s c).percentage) ∧
      ((scoreSpec v false d m r l p s c).totalScore ≤
          (scoreSpec v true d m r l p s c).totalScore ∧
        (scoreSpec v false d m r l p s c).percentage ≤
          (scoreSpec v true d m r l p s c).percentage) ∧
      ((scoreSpec v t false m r l p s c).totalScore ≤
          (scoreSpec v t true m r l p s c).totalScore ∧
        (scoreSpec v t false m r l p s c).percentage ≤
          (scoreSpec v t true m r l p s c).percentage) ∧
      ((scoreSpec v t d false r l p s c).totalScore ≤
          (scoreSpec v t d true r l p s c).totalScore ∧
        (scoreSpec v t d false r l p s c).percentage ≤
          (scoreSpec v t d true r l p s c).percentage) ∧
      ((scoreSpec v t d m false l p s c).totalScore ≤
          (scoreSpec v t d m true l p s c).totalScore ∧
        (scoreSpec v t d m false l p s c).percentage ≤
          (scoreSpec v t d m true l p s c).percentage) ∧
      ((scoreSpec v t d m r false p s c).totalScore ≤
          (scoreSpec v t d m r true p s c).totalScore ∧
        (scoreSpec v t d m r false p s c).percentage ≤
          (scoreSpec v t d m r true p s c).percentage) ∧
      ((scoreSpec v t d m r l false s c).totalScore ≤
          (scoreSpec v t d m r l true s c).totalScore ∧
        (scoreSpec v t d m r l false s c).percentage ≤
          (scoreSpec v t d m r l true s c).percentage) ∧
      ((scoreSpec v t d m r l p false c).totalScore ≤
          (scoreSpec v t d m r l p true c).totalScore ∧
        (scoreSpec v t d m r l p false c).percentage ≤
          (scoreSpec v t d m r l p true c).percentage) ∧
      ((scoreSpec v t d m r l p s false).totalScore ≤
          (scoreSpec v t d m r l p s true).totalScore ∧
        (scoreSpec v t d m r l p s false).percentage ≤
          (scoreSpec v t d m r l p s true).percentage) := by decide
  intro v t d m r l p s c
  simpa only [calculateToolScore_fullInput] using h v t d m r l p s c

/-- C6: `calculateToolScore` is total over partial inputs: a payload with
any subset of the 9 flags absent yields exactly the result of the payload
with the absent flags taken as false (and the function is a total Lean
function, so it never fails or rejects an input). -/
theorem claim_C6_missing_flags_default_false :
    ∀ data : ToolScoreData,
      calculateToolScore data =
        calculateToolScore
          (fullInput (jsBoolean data.isValidated) (jsBoolean data.hasTools)
            (jsBoolean data.hasDeployment) (jsBoolean data.hasDeployMoreThanManual)
            (jsBoolean data.hasReadme) (jsBoolean data.hasLicense)
            (jsBoolean data.hasPrompts) (jsBoolean data.hasResources)
            (jsBoolean data.isClaimed)) :=
  fun _ => rfl

/-! ### Tool route handlers: scoring paths of PATCH /api/tools/[id] and
POST /api/tools

Only the scoring-relevant columns of a tool row are modelled; the other
columns (name, description, …) do not interact with the claims.  A PATCH
payload's nine optional quality flags have exactly the shape of
`ToolScoreData` (`updateToolSchema = createToolSchema.partial()`), with
`Option.isSome` playing the role of JavaScript's `field in updateData`. -/

/-- The nine persisted quality-flag columns of a tool row, in the order of
the `scoringFields` list in the PATCH handler. -/
structure QualityFlags where
  isValidated : Bool
  hasTools : Bool
  hasDeployment : Bool
  hasDeployMoreThanManual : Bool
  hasReadme : Bool
  hasLicense : Bool
  hasPrompts : Bool
  hasResources : Bool
  isClaimed : Bool
deriving DecidableEq, Repr

/-- The scoring-relevant columns of a stored tool row. -/
structure ToolRow where
  flags : QualityFlags
  totalScore : Nat
  maxScore : Nat
  percentage : Int
  grade : Grade
  scoreData : ScoreFlags
deriving DecidableEq, Repr

/-- `scoringFields.some(field => field in updateData)` from the PATCH
handler. -/
def scoringFieldPresent (upd : ToolScoreData) : Bool :=
  upd.isValidated.isSome || upd.hasTools.isSome || upd.hasDeployment.isSome ||
  upd.hasDeployMoreThanManual.isSome || upd.hasReadme.isSome ||
  upd.hasLicense.isSome || upd.hasPrompts.isSome || upd.hasResources.isSome ||
  upd.isClaimed.isSome

/-- The `merged` object of the PATCH handler: payload value when present
(`??`), otherwise the stored value.  The same merge also describes the flag
columns after `db.update(...).set({...updateData, ...})`: columns named in
the payload are overwritten, the rest keep their stored values. -/
def mergedFlags (existing : QualityFlags) (upd : ToolScoreData) : QualityFlags :=
  { isValidated := upd.isValidated.getD existing.isValidated
    hasTools := upd.hasTools.getD existing.hasTools
    hasDeployment := upd.hasDeployment.getD existing.hasDeployment
    hasDeployMoreThanManual := upd.hasDeployMoreThanManual.getD existing.hasDeployMoreThanManual
    hasReadme := upd.hasReadme.getD existing.hasReadme
    hasLicense := upd.hasLicense.getD existing.hasLicense
    hasPrompts := upd.hasPrompts.getD existing.hasPrompts
    hasResources := upd.hasResources.getD existing.hasResources
    isClaimed := upd.isClaimed.getD existing.isClaimed }

/-- A concrete nine-flag object passed to `calculateToolScore` (every field
present). -/
def toScoreData (q : QualityFlags) : ToolScoreData :=
  fullInput q.isValidated q.hasTools q.hasDeployment q.hasDeployMoreThanManual
    q.hasReadme q.hasLicense q.hasPrompts q.hasResources q.isClaimed

/-- The `scoreData` object literal built in the PATCH handler from the
merged flags. -/
def toScoreFlags (q : QualityFlags) : ScoreFlags :=
  { hasValidated := q.isValidated
    hasTools := q.hasTools
    hasDeployment := q.hasDeployment
    hasDeployMoreThanManual := q.hasDeployMoreThanManual
    hasReadme := q.hasReadme
    hasLicense := q.hasLicense
    hasPrompts := q.hasPrompts
    hasResources := q.hasResources
    hasClaimed := q.isClaimed }

/-- The scoring path of the PATCH handler: recompute and persist the derived
fields exactly when some quality-flag field occurs in the payload. -/
def patchToolScoring (existing : ToolRow) (upd : ToolScoreData) : ToolRow :=
  let needsScoreRecalc := scoringFieldPresent upd
  let newFlags := mergedFlags existing.flags upd
  if needsScoreRecalc then
    let merged := mergedFlags existing.flags upd
    let scoreResult := calculateToolScore (toScoreData merged)
    { flags := newFlags
      totalScore := scoreResult.totalScore
      maxScore := scoreResult.maxScore
      percentage := scoreResult.percentage
      grade := scoreResult.grade
      scoreData := toScoreFlags merged }
  else
    { existing with flags := newFlags }

/-- The `scoreData` object literal of the POST handler (note
`toolData.hasTools || true`). -/
def postScoreData (toolData : QualityFlags) : ScoreFlags :=
  { hasValidated := toolData.isValidated || false
    hasTools := toolData.hasTools || true
    hasDeployment := toolData.hasDeployment || false
    hasDeployMoreThanManual := toolData.hasDeployMoreThanManual || false
    hasReadme := toolData.hasReadme || false
    hasLicense := toolData.hasLicense || false
    hasPrompts := toolData.hasPrompts || false
    hasResources := toolData.hasResources || false
    hasClaimed := toolData.isClaimed || false }

/-- The scoring path of the POST handler: after `createToolSchema` parsing
every quality flag is a concrete boolean (each has a zod default), the score
is computed from them, and `scoreData` is stored via `postScoreData`. -/
def postToolRow (toolData : QualityFlags) : ToolRow :=
  let scoreResult := calculateToolScore (toScoreData toolData)
  { flags := toolData
    totalScore := scoreResult.totalScore
    maxScore := scoreResult.maxScore
    percentage := scoreResult.percentage
    grade := scoreResult.grade
    scoreData := postScoreData toolData }

/-- C4: for every PATCH whose payload contains at least one of the 9
quality-flag fields, the persisted totalScore, percentage and grade are
those computed by `calculateToolScore` on the merged flags (payload value
when present, stored value otherwise), and the persisted flag columns are
exactly those merged flags — so the stored derived fields are the pure
scoring function of the stored flags after the write. -/
theorem claim_C4_patch_recomputes_score :
    ∀ (existing : ToolRow) (upd : ToolScoreData),
      scoringFieldPresent upd = true →
        (patchToolScoring existing upd).flags = mergedFlags existing.flags upd ∧
        (patchToolScoring existing upd).totalScore =
          (calculateToolScore (toScoreData (mergedFlags existing.flags upd))).totalScore ∧
        (patchToolScoring existing upd).percentage =
          (calculateToolScore (toScoreData (mergedFlags existing.flags upd))).percentage ∧
        (patchToolScoring existing upd).grade =
          (calculateToolScore (toScoreData (mergedFlags existing.flags upd))).grade := by
  intro existing upd h
  simp [patchToolScoring, h]

/-- Witness for C4: a payload setting only `isValidated` on a concrete
stored row. -/
theorem claim_C4_patch_recomputes_score_witness :
    scoringFieldPresent { isValidated := some true } = true ∧
      (patchToolScoring
          { flags := ⟨false, true, false, false, false, false, false, false, false⟩
            totalScore := 15
            maxScore := 100
            percentage := 15
            grade := Grade.f
            scoreData := ⟨false, false, false, false, false, false, false, true, false⟩ }
          { isValidated := some true }).totalScore =
        (calculateToolScore
            (toScoreData
              (mergedFlags ⟨false, true, false, false, false, false, false, false, false⟩
                { isValidated := some true }))).totalScore :=
  ⟨by decide,
    (claim_C4_patch_recomputes_score
        { flags := ⟨false, true, false, false, false, false, false, false, false⟩
          totalScore := 15
          maxScore := 100
          percentage := 15
          grade := Grade.f
          scoreData := ⟨false, false, false, false, false, false, false, true, false⟩ }
        { isValidated := some true } (by decide)).2.1⟩

/-- C10: every accepted POST stores `scoreData.hasTools = true` regardless
of the request's hasTools flag (the stored expression is
`toolData.hasTools || true`), while with hasTools = false the computed
totalScore omits the hasTools weight — so the stored breakdown disagrees
with the flags the score was computed from. -/
theorem claim_C10_post_scoredata_hastools :
    ∀ v t d m r l p s c : Bool,
      (postToolRow ⟨v, t, d, m, r, l, p, s, c⟩).scoreData.hasTools = true ∧
      (t = false →
        (postToolRow ⟨v, t, d, m, r, l, p, s, c⟩).totalScore =
          totalWeight v false d m r l p s c ∧
        (postToolRow ⟨v, t, d, m, r, l, p, s, c⟩).scoreData ≠
          toScoreFlags ⟨v, t, d, m, r, l, p, s, c⟩) := by
  intro v t d m r l p s c
  constructor
  · cases t <;> rfl
  · intro ht
    subst ht
    constructor
    · show (calculateToolScore (toScoreData ⟨v, false, d, m, r, l, p, s, c⟩)).totalScore = _
      rw [show toScoreData ⟨v, false, d, m, r, l, p, s, c⟩
            = fullInput v false d m r l p s c from rfl,
        calculateToolScore_fullInput]
      rfl
    · intro hEq
      have : (false || true) = false := congrArg ScoreFlags.hasTools hEq
      simp at this

/-- Witness for C10 at the all-false request payload. -/
theorem claim_C10_post_scoredata_hastools_witness :
    (postToolRow ⟨false, false, false, false, false, false, false, false, false⟩).scoreData.hasTools
        = true ∧
      (postToolRow
          ⟨false, false, false, false, false, false, false, false, false⟩).totalScore =
        totalWeight false false false false false false false false false :=
  ⟨(claim_C10_post_scoredata_hastools false false false false false false false false false).1,
    ((claim_C10_post_scoredata_hastools false false false false false false false false false).2
        rfl).1⟩

/-! ### Trending ranker: GET /api/trending

The handler is embedded as a pure function of (now, period, limit,
category, usage events, tool rows).  SQL-level choices that the database
leaves unspecified (order of equal-count groups, row order of an
`id = ANY(...)` fetch) are determinized in the standard way: groups appear
in first-occurrence order and are sorted by a stable sort, and the fetch
preserves the catalog order.  `List.mergeSort` (stable) models both the SQL
`ORDER BY ... DESC` and the JavaScript `Array.prototype.sort` (stable per
ES2019) with the comparator `(a, b) => b.trendingScore - a.trendingScore`. -/

/-- A `tool_usage_logs` row as consulted by the trending handler:
`createdAt` in milliseconds since the epoch. -/
structure UsageEvent where
  toolId : Nat
  createdAt : Int
deriving DecidableEq, Repr

/-- The columns of a `tools` row the trending handler consults. -/
structure TrendTool where
  id : Nat
  category : String
  totalScore : Int
  downloadCount : Int
deriving DecidableEq, Repr

/-- An output row: the tool spread together with the two computed fields. -/
structure TrendingTool where
  tool : TrendTool
  trendingScore : Int
  recentUsage : Nat
deriving DecidableEq, Repr

/-- The validated `period` query parameter. -/
inductive Period where
  | day
  | week
  | month
deriving DecidableEq, Repr

/-- The `periodDays` lookup object of the handler. -/
def periodDays : Period → Nat
  | .day => 1
  | .week => 7
  | .month => 30

/-- `new Date(now.getTime() - periodDays * 24 * 60 * 60 * 1000)`. -/
def dateThreshold (now : Int) (period : Period) : Int :=
  now - (periodDays period : Int) * 24 * 60 * 60 * 1000

/-- JavaScript `n || 0` on an integer. -/
def jsOrZero (n : Int) : Int := if n = 0 then 0 else n

/-- The events selected by `WHERE created_at >= threshold`. -/
def windowEvents (now : Int) (period : Period) (events : List UsageEvent) :
    List UsageEvent :=
  events.filter (fun e => dateThreshold now period ≤ e.createdAt)

/-- One step of `GROUP BY tool_id` with `count(*)`: bump the group of `id`,
or open a new group at the end. -/
def bumpCount (acc : List (Nat × Nat)) (id : Nat) : List (Nat × Nat) :=
  if acc.any (fun p => p.1 == id) then
    acc.map (fun p => if p.1 == id then (p.1, p.2 + 1) else p)
  else
    acc ++ [(id, 1)]

/-- `GROUP BY tool_id, count(*)`: groups in first-occurrence order. -/
def groupCounts (events : List UsageEvent) : List (Nat × Nat) :=
  events.foldl (fun acc e => bumpCount acc e.toolId) []

/-- Descending comparison on usage counts (`ORDER BY usage_count DESC`). -/
def countLe (a b : Nat × Nat) : Bool := decide (b.2 ≤ a.2)

/-- The `trendingData` rows: per-tool window usage counts, ordered by count
descending, truncated to `limit * 2` ("Get extra to filter by category"). -/
def trendingData (now : Int) (period : Period) (limit : Nat)
    (events : List UsageEvent) : List (Nat × Nat) :=
  ((groupCounts (windowEvents now period events)).mergeSort countLe).take (limit * 2)

/-- The optional `eq(tools.category, category)` condition. -/
def categoryFilter (category : Option String) (tools : List TrendTool) :
    List TrendTool :=
  match category with
  | some c => tools.filter (fun t => t.category == c)
  | none => tools

/-- Descending lexicographic comparison on (totalScore, downloadCount)
(`ORDER BY total_score DESC, download_count DESC`). -/
def fallbackLe (a b : TrendTool) : Bool :=
  decide (b.totalScore < a.totalScore) ||
    (a.totalScore == b.totalScore && decide (b.downloadCount ≤ a.downloadCount))

/-- The fallback branch: top `limit` tools by stored score, with
`trendingScore = totalScore || 0` and `recentUsage = 0`. -/
def fallbackTools (limit : Nat) (category : Option String)
    (tools : List TrendTool) : List TrendingTool :=
  (((categoryFilter category tools).mergeSort fallbackLe).take limit).map
    (fun t => { tool := t, trendingScore := jsOrZero t.totalScore, recentUsage := 0 })

/-- `usageMap.get(id) || 0`. -/
def usageLookup (td : List (Nat × Nat)) (id : Nat) : Nat :=
  ((td.find? (fun p => p.1 == id)).map Prod.snd).getD 0

/-- The merge step `{...tool, trendingScore, recentUsage}`. -/
def mkTrending (td : List (Nat × Nat)) (t : TrendTool) : TrendingTool :=
  { tool := t
    trendingScore := (usageLookup td t.id : Int) + jsOrZero t.totalScore
    recentUsage := usageLookup td t.id }

/-- Descending comparison on trendingScore (the JavaScript comparator
`(a, b) => b.trendingScore - a.trendingScore`). -/
def trendLe (a b : TrendingTool) : Bool := decide (b.trendingScore ≤ a.trendingScore)

/-- The main branch: fetch the tools whose ids carry window usage, filter by
category, blend usage with stored score, sort descending, truncate. -/
def rankedTools (td : List (Nat × Nat)) (limit : Nat) (category : Option String)
    (tools : List TrendTool) : List TrendingTool :=
  let toolIds := td.map Prod.fst
  let fetched := tools.filter (fun t => toolIds.contains t.id)
  let filtered := categoryFilter category fetched
  ((filtered.map (mkTrending td)).mergeSort trendLe).take limit

/-- GET /api/trending: the whole computation of the handler's success
response. -/
def trendingGET (now : Int) (period : Period) (limit : Nat)
    (category : Option String) (events : List UsageEvent)
    (tools : List TrendTool) : List TrendingTool :=
  let td := trendingData now period limit events
  if td.isEmpty then fallbackTools limit category tools
  else rankedTools td limit category tools

/-! ### Helper lemmas for the trending proofs -/

theorem jsOrZero_eq (n : Int) : jsOrZero n = n := by
  unfold jsOrZero
  split <;> omega

theorem countLe_trans (a b c : Nat × Nat) :
    countLe a b = true → countLe b c = true → countLe a c = true := by
  simp only [countLe, decide_eq_true_eq]
  omega

theorem countLe_total (a b : Nat × Nat) : (countLe a b || countLe b a) = true := by
  simp only [countLe, Bool.or_eq_true, decide_eq_true_eq]
  omega

theorem fallbackLe_trans (a b c : TrendTool) :
    fallbackLe a b = true → fallbackLe b c = true → fallbackLe a c = true := by
  simp only [fallbackLe, Bool.or_eq_true, Bool.and_eq_true, decide_eq_true_eq,
    beq_iff_eq]
  omega

theorem fallbackLe_total (a b : TrendTool) :
    (fallbackLe a b || fallbackLe b a) = true := by
  simp only [fallbackLe, Bool.or_eq_true, Bool.and_eq_true, decide_eq_true_eq,
    beq_iff_eq]
  omega

theorem trendLe_trans (a b c : TrendingTool) :
    trendLe a b = true → trendLe b c = true → trendLe a c = true := by
  simp only [trendLe, decide_eq_true_eq]
  omega

theorem trendLe_total (a b : TrendingTool) : (trendLe a b || trendLe b a) = true := by
  simp only [trendLe, Bool.or_eq_true, decide_eq_true_eq]
  omega

theorem bump_key (id : Nat) (p : Nat × Nat) :
    (if p.1 == id then (p.1, p.2 + 1) else p).1 = p.1 := by
  split <;> rfl

theorem find?_map_bump (acc : List (Nat × Nat)) (id id' : Nat) :
    (acc.map (fun p => if p.1 == id then (p.1, p.2 + 1) else p)).find?
        (fun p => p.1 == id') =
      (acc.find? (fun p => p.1 == id')).map
        (fun p => if p.1 == id then (p.1, p.2 + 1) else p) := by
  induction acc with
  | nil => rfl
  | cons h tl ih =>
    simp only [List.map_cons, List.find?_cons]
    rw [bump_key]
    cases hk : (h.1 == id') with
    | true => rfl
    | false => exact ih

theorem usageLookup_bumpCount (acc : List (Nat × Nat)) (id id' : Nat) :
    usageLookup (bumpCount acc id) id' =
      usageLookup acc id' + (if id' = id then 1 else 0) := by
  unfold bumpCount usageLookup
  split
  · rename_i hAny
    rw [find?_map_bump]
    cases hf : acc.find? (fun p => p.1 == id') with
    | none =>
      by_cases hEq : id' = id
      · subst hEq
        rcases List.any_eq_true.mp hAny with ⟨p, hp, hpk⟩
        have hSome := List.find?_eq_none.mp hf p hp
        exact absurd hpk hSome
      · simp [hEq]
    | some p =>
      have hpt := List.find?_some hf
      have hpk : p.1 = id' := by simpa using hpt
      by_cases hEq : id' = id
      · subst hEq
        simp [hpk]
      · have hcp : ¬ p.1 = id := by
          rw [hpk]
          exact hEq
        simp [beq_iff_eq, hcp, hEq]
  · rename_i hAny
    rw [List.find?_append]
    cases hf : acc.find? (fun p => p.1 == id') with
    | none =>
      by_cases hEq : id' = id
      · subst hEq
        simp [List.find?]
      · have hc : (id == id') = false := beq_false_of_ne (Ne.symm hEq)
        simp [List.find?, hc, hEq]
    | some p =>
      have hpt := List.find?_some hf
      have hpk : p.1 = id' := by simpa using hpt
      have hne : id' ≠ id := by
        intro hEq
        subst hEq
        apply hAny
        exact List.any_eq_true.mpr ⟨p, List.mem_of_find?_eq_some hf, by simp [hpk]⟩
      simp [hne]

theorem usageLookup_foldl (l : List UsageEvent) :
    ∀ (acc : List (Nat × Nat)) (id : Nat),
      usageLookup (l.foldl (fun a e => bumpCount a e.toolId) acc) id =
        usageLookup acc id + (l.filter (fun e => e.toolId == id)).length := by
  induction l with
  | nil =>
    intro acc id
    simp [List.foldl_nil, List.filter_nil]
  | cons e tl ih =>
    intro acc id
    simp only [List.foldl_cons, List.filter_cons]
    rw [ih, usageLookup_bumpCount]
    cases hk : (e.toolId == id) with
    | true =>
      have heq : id = e.toolId := (eq_of_beq hk).symm
      simp [heq, List.length_cons]
      omega
    | false =>
      have hne : id ≠ e.toolId := fun h => by
        rw [h] at hk
        simp at hk
      simp [hne]

theorem usageLookup_groupCounts (l : List UsageEvent) (id : Nat) :
    usageLookup (groupCounts l) id = (l.filter (fun e => e.toolId == id)).length := by
  have h := usageLookup_foldl l [] id
  simpa [usageLookup] using h

theorem bumpCount_keys (acc : List (Nat × Nat)) (id : Nat) :
    (bumpCount acc id).map Prod.fst =
      if acc.any (fun p => p.1 == id) then acc.map Prod.fst
      else acc.map Prod.fst ++ [id] := by
  unfold bumpCount
  split
  · rw [List.map_map]
    exact List.map_congr_left (fun p _ => bump_key id p)
  · simp

theorem groupCounts_keys_nodup (l : List UsageEvent) :
    ((groupCounts l).map Prod.fst).Nodup := by
  suffices h : ∀ acc : List (Nat × Nat), (acc.map Prod.fst).Nodup →
      ((l.foldl (fun a e => bumpCount a e.toolId) acc).map Prod.fst).Nodup by
    exact h [] (by simp)
  induction l with
  | nil =>
    intro acc hacc
    simpa using hacc
  | cons e tl ih =>
    intro acc hacc
    simp only [List.foldl_cons]
    apply ih
    rw [bumpCount_keys]
    split
    · exact hacc
    · rename_i hAny
      have hnotmem : e.toolId ∉ acc.map Prod.fst := by
        intro hmem
        rcases List.mem_map.mp hmem with ⟨p, hp, hpk⟩
        exact hAny (List.any_eq_true.mpr ⟨p, hp, by simp [hpk]⟩)
      simp [List.nodup_append, hacc, hnotmem]

theorem find?_eq_of_mem_of_keysNodup :
    ∀ (l : List (Nat × Nat)), (l.map Prod.fst).Nodup →
      ∀ e ∈ l, l.find? (fun p => p.1 == e.1) = some e := by
  intro l
  induction l with
  | nil =>
    intro _ e he
    cases he
  | cons h tl ih =>
    intro hnd e he
    rcases List.mem_cons.mp he with he | he
    · subst he
      simp [List.find?_cons]
    · have hnd' : h.1 ∉ tl.map Prod.fst ∧ (tl.map Prod.fst).Nodup := by
        rw [List.map_cons, List.nodup_cons] at hnd
        exact hnd
      have hek : e.1 ∈ tl.map Prod.fst := List.mem_map.mpr ⟨e, he, rfl⟩
      have hne : (h.1 == e.1) = false := by
        refine beq_false_of_ne (fun hEq => ?_)
        rw [hEq] at hnd'
        exact hnd'.1 hek
      rw [List.find?_cons, hne]
      exact ih hnd'.2 e he

theorem mem_groupCounts_count (l : List UsageEvent) (e : Nat × Nat)
    (he : e ∈ groupCounts l) :
    e.2 = (l.filter (fun ev => ev.toolId == e.1)).length := by
  have h1 := find?_eq_of_mem_of_keysNodup (groupCounts l) (groupCounts_keys_nodup l) e he
  have h2 := usageLookup_groupCounts l e.1
  rw [usageLookup, h1] at h2
  simpa using h2

theorem groupCounts_ne_nil (l : List UsageEvent) (hl : l ≠ []) :
    groupCounts l ≠ [] := by
  intro h
  match l, hl with
  | e :: tl, _ =>
    have hcnt := usageLookup_groupCounts (e :: tl) e.toolId
    rw [h] at hcnt
    simp [usageLookup, List.filter_cons] at hcnt

section SortHelpers

variable {α : Type} (le : α → α → Bool)

theorem sortTake_pairwise
    (htrans : ∀ a b c, le a b = true → le b c = true → le a c = true)
    (htotal : ∀ a b, (le a b || le b a) = true)
    (l : List α) (n : Nat) :
    ((l.mergeSort le).take n).Pairwise (fun a b => le a b = true) :=
  List.Pairwise.sublist (List.take_sublist n (l.mergeSort le))
    (List.sorted_mergeSort htrans htotal l)

theorem sortTake_subset (l : List α) (n : Nat) :
    ∀ x ∈ (l.mergeSort le).take n, x ∈ l := fun x hx =>
  (List.mergeSort_perm l le).subset ((List.take_sublist n (l.mergeSort le)).subset hx)

theorem sortTake_dominates
    (htrans : ∀ a b c, le a b = true → le b c = true → le a c = true)
    (htotal : ∀ a b, (le a b || le b a) = true)
    (l : List α) (n : Nat) :
    l.Perm ((l.mergeSort le).take n ++ (l.mergeSort le).drop n) ∧
      ∀ x ∈ (l.mergeSort le).take n, ∀ y ∈ (l.mergeSort le).drop n,
        le x y = true := by
  constructor
  · rw [List.take_append_drop]
    exact (List.mergeSort_perm l le).symm
  · have hp := List.sorted_mergeSort htrans htotal l
    rw [← List.take_append_drop n (l.mergeSort le)] at hp
    exact (List.pairwise_append.mp hp).2.2

end SortHelpers

theorem categoryFilter_subset (category : Option String) (l : List TrendTool) :
    ∀ x ∈ categoryFilter category l, x ∈ l := by
  intro x hx
  cases category with
  | none => exact hx
  | some c => exact (List.mem_filter.mp hx).1

theorem trendingData_subset (now : Int) (period : Period) (limit : Nat)
    (events : List UsageEvent) :
    ∀ e ∈ trendingData now period limit events,
      e ∈ groupCounts (windowEvents now period events) := by
  intro e he
  exact sortTake_subset countLe _ _ e he

theorem trendingData_keys_nodup (now : Int) (period : Period) (limit : Nat)
    (events : List UsageEvent) :
    ((trendingData now period limit events).map Prod.fst).Nodup := by
  unfold trendingData
  rw [List.map_take]
  apply List.Nodup.sublist (List.take_sublist _ _)
  have hperm :=
    (List.mergeSort_perm (groupCounts (windowEvents now period events)) countLe).map
      Prod.fst
  exact hperm.nodup_iff.mpr (groupCounts_keys_nodup _)

theorem usageLookup_trendingData (now : Int) (period : Period) (limit : Nat)
    (events : List UsageEvent) (id : Nat)
    (hid : id ∈ (trendingData now period limit events).map Prod.fst) :
    usageLookup (trendingData now period limit events) id =
      ((windowEvents now period events).filter (fun ev => ev.toolId == id)).length := by
  rcases List.mem_map.mp hid with ⟨e, he, hke⟩
  have hfind := find?_eq_of_mem_of_keysNodup _
    (trendingData_keys_nodup now period limit events) e he
  have hcnt := mem_groupCounts_count _ e (trendingData_subset now period limit events e he)
  subst hke
  rw [usageLookup, hfind]
  simpa using hcnt

theorem trendingData_eq_nil (now : Int) (period : Period) (limit : Nat)
    (events : List UsageEvent) (hwin : windowEvents now period events = []) :
    trendingData now period limit events = [] := by
  unfold trendingData
  rw [hwin]
  simp [groupCounts]

theorem trendingData_ne_nil (now : Int) (period : Period) (limit : Nat)
    (events : List UsageEvent)
    (hwin : windowEvents now period events ≠ []) (hlim : 1 ≤ limit) :
    trendingData now period limit events ≠ [] := by
  unfold trendingData
  intro h
  have hlen : ((((groupCounts (windowEvents now period events)).mergeSort
      countLe).take (limit * 2)).length) = 0 := by
    rw [h]
    rfl
  rw [List.length_take] at hlen
  have hms := (List.mergeSort_perm (groupCounts (windowEvents now period events))
    countLe).length_eq
  have hpos : 0 < (groupCounts (windowEvents now period events)).length :=
    List.length_pos.mpr (groupCounts_ne_nil _ hwin)
  omega

/-! ### Claims about the trending ranker -/

/-- C7: when no usage events fall inside the lookback window, the ranker
returns at most `limit` tools, each with `recentUsage = 0` and
`trendingScore` equal to its stored totalScore, all matching the category
filter when one is given, ordered by stored totalScore descending then
downloadCount descending; the returned tools together with some remainder
permute the whole (category-filtered) catalog and dominate the remainder,
so they are the top `limit` tools.  (The embedding is a total function, so
this path produces a value, never an error.) -/
theorem claim_C7_trending_fallback (now : Int) (period : Period) (limit : Nat)
    (category : Option String) (events : List UsageEvent) (tools : List TrendTool)
    (hwin : windowEvents now period events = []) :
    (trendingGET now period limit category events tools).length ≤ limit ∧
    (∀ x ∈ trendingGET now period limit category events tools,
      x.recentUsage = 0 ∧ x.trendingScore = x.tool.totalScore) ∧
    (∀ c, category = some c →
      ∀ x ∈ trendingGET now period limit category events tools,
        x.tool.category = c) ∧
    (trendingGET now period limit category events tools).Pairwise
      (fun a b => fallbackLe a.tool b.tool = true) ∧
    ∃ rest : List TrendTool,
      (categoryFilter category tools).Perm
        ((trendingGET now period limit category events tools).map
          TrendingTool.tool ++ rest) ∧
      ∀ x ∈ trendingGET now period limit category events tools, ∀ y ∈ rest,
        fallbackLe x.tool y = true := by
  have hGET : trendingGET now period limit category events tools
      = fallbackTools limit category tools := by
    unfold trendingGET
    rw [trendingData_eq_nil now period limit events hwin]
    rfl
  rw [hGET]
  unfold fallbackTools
  refine ⟨?_, ?_, ?_, ?_, ?_⟩
  · rw [List.length_map]
    exact List.length_take_le limit _
  · intro x hx
    rcases List.mem_map.mp hx with ⟨t, _, rfl⟩
    exact ⟨rfl, jsOrZero_eq _⟩
  · intro c hc x hx
    rcases List.mem_map.mp hx with ⟨t, ht, rfl⟩
    have hmem := sortTake_subset fallbackLe _ limit t ht
    rw [hc] at hmem
    exact eq_of_beq (List.mem_filter.mp hmem).2
  · exact List.pairwise_map.mpr
      (sortTake_pairwise fallbackLe fallbackLe_trans fallbackLe_total
        (categoryFilter category tools) limit)
  · obtain ⟨hperm, hdom⟩ := sortTake_dominates fallbackLe fallbackLe_trans
      fallbackLe_total (categoryFilter category tools) limit
    refine ⟨((categoryFilter category tools).mergeSort fallbackLe).drop limit, ?_, ?_⟩
    · rw [List.map_map]
      have hid : ((((categoryFilter category tools).mergeSort fallbackLe).take
            limit).map (TrendingTool.tool ∘ fun t =>
              ({ tool := t, trendingScore := jsOrZero t.totalScore,
                 recentUsage := 0 } : TrendingTool)))
          = (((categoryFilter category tools).mergeSort fallbackLe).take limit) := by
        rw [List.map_congr_left (fun t _ => rfl)]
        exact List.map_id _
      rw [hid]
      exact hperm
    · intro x hx y hy
      rcases List.mem_map.mp hx with ⟨t, ht, rfl⟩
      exact hdom t ht y hy

/-- Witness for C7: a single out-of-window event, three catalog tools,
limit 2. -/
theorem claim_C7_trending_fallback_witness :
    windowEvents 1000 Period.day [⟨1, -1000000000⟩] = [] ∧
      (trendingGET 1000 Period.day 2 none [⟨1, -1000000000⟩]
          [⟨1, "defi", 90, 0⟩, ⟨2, "defi", 50, 0⟩, ⟨3, "nft", 10, 0⟩]).length ≤ 2 :=
  ⟨by decide,
    (claim_C7_trending_fallback 1000 Period.day 2 none [⟨1, -1000000000⟩]
      [⟨1, "defi", 90, 0⟩, ⟨2, "defi", 50, 0⟩, ⟨3, "nft", 10, 0⟩] (by decide)).1⟩

/-- C8: when at least one usage event lies in the window (and the catalog
has distinct tool ids, `limit ≥ 1` per the validated query contract), every
returned tool's trendingScore is its usage-event count in the window plus
its stored totalScore (and recentUsage is that count), the output is sorted
by trendingScore descending, truncated to `limit`, and has no duplicate
tools. -/
theorem claim_C8_trending_blend (now : Int) (period : Period) (limit : Nat)
    (category : Option String) (events : List UsageEvent) (tools : List TrendTool)
    (hlim : 1 ≤ limit)
    (hwin : windowEvents now period events ≠ [])
    (hids : (tools.map TrendTool.id).Nodup) :
    (∀ x ∈ trendingGET now period limit category events tools,
      x.trendingScore =
        (((windowEvents now period events).filter
            (fun ev => ev.toolId == x.tool.id)).length : Int) + x.tool.totalScore ∧
      x.recentUsage =
        ((windowEvents now period events).filter
            (fun ev => ev.toolId == x.tool.id)).length) ∧
    (trendingGET now period limit category events tools).Pairwise
      (fun a b => b.trendingScore ≤ a.trendingScore) ∧
    (trendingGET now period limit category events tools).length ≤ limit ∧
    ((trendingGET now period limit category events tools).map
      (fun x => x.tool.id)).Nodup := by
  have htd := trendingData_ne_nil now period limit events hwin hlim
  have hGET : trendingGET now period limit category events tools
      = rankedTools (trendingData now period limit events) limit category tools := by
    unfold trendingGET
    rw [if_neg (by simpa using htd)]
  rw [hGET]
  unfold rankedTools
  refine ⟨?_, ?_, ?_, ?_⟩
  · intro x hx
    rcases List.mem_map.mp (sortTake_subset trendLe _ limit x hx) with ⟨t, ht, rfl⟩
    have hfet := categoryFilter_subset category _ t ht
    have hkey : t.id ∈ (trendingData now period limit events).map Prod.fst := by
      have hc := (List.mem_filter.mp hfet).2
      simpa using hc
    refine ⟨?_, ?_⟩
    · show (usageLookup (trendingData now period limit events) t.id : Int) +
        jsOrZero t.totalScore = _
      rw [usageLookup_trendingData now period limit events t.id hkey, jsOrZero_eq]
      rfl
    · show usageLookup (trendingData now period limit events) t.id = _
      rw [usageLookup_trendingData now period limit events t.id hkey]
      rfl
  · exact (sortTake_pairwise trendLe trendLe_trans trendLe_total _ limit).imp
      (fun h => of_decide_eq_true h)
  · exact List.length_take_le limit _
  · rw [List.map_take]
    apply List.Nodup.sublist (List.take_sublist _ _)
    have hpm := (List.mergeSort_perm
      ((categoryFilter category (tools.filter (fun t =>
          (((trendingData now period limit events)).map Prod.fst).contains t.id))).map
        (mkTrending (trendingData now period limit events))) trendLe).map
      (fun x => x.tool.id)
    apply hpm.nodup_iff.mpr
    rw [List.map_map]
    have hn1 : ((tools.filter (fun t =>
        ((trendingData now period limit events).map Prod.fst).contains t.id)).map
          TrendTool.id).Nodup :=
      List.Nodup.sublist ((List.filter_sublist _).map TrendTool.id) hids
    have hn2 : ((categoryFilter category (tools.filter (fun t =>
        ((trendingData now period limit events).map Prod.fst).contains t.id))).map
          TrendTool.id).Nodup := by
      cases category with
      | none => exact hn1
      | some c => exact List.Nodup.sublist ((List.filter_sublist _).map TrendTool.id) hn1
    have hcg : ((categoryFilter category (tools.filter (fun t =>
        ((trendingData now period limit events).map Prod.fst).contains t.id))).map
          ((fun x => x.tool.id) ∘ mkTrending (trendingData now period limit events)))
        = ((categoryFilter category (tools.filter (fun t =>
            ((trendingData now period limit events).map Prod.fst).contains t.id))).map
              TrendTool.id) :=
      List.map_congr_left (fun t _ => rfl)
    rw [hcg]
    exact hn2

/-- Witness for C8: one in-window event for tool 1, a single catalog tool,
limit 2. -/
theorem claim_C8_trending_blend_witness :
    1 ≤ 2 ∧ windowEvents 1000 Period.day [⟨1, 900⟩] ≠ [] ∧
      (([⟨1, "defi", 50, 7⟩] : List TrendTool).map TrendTool.id).Nodup ∧
      (trendingGET 1000 Period.day 2 none [⟨1, 900⟩] [⟨1, "defi", 50, 7⟩]).length ≤ 2 :=
  ⟨by decide, by decide, by decide,
    (claim_C8_trending_blend 1000 Period.day 2 none [⟨1, 900⟩] [⟨1, "defi", 50, 7⟩]
      (by decide) (by decide) (by decide)).2.2.1⟩

unseal List.merge List.mergeSort in
/-- C9 counterexample: with limit = 1 and category filter "nft", the two
"defi" tools have more window usage, so they fill both of the
`limit * 2 = 2` fetched usage keys; after the category filter nothing is
left and the handler returns the empty list — even though the "nft" tool
has window usage (and would have the trendingScore 91, higher than any
returned tool, since none is returned). -/
theorem claim_C9_crowding_counterexample :
    trendingGET 0 Period.day 1 (some "nft")
        [⟨1, 0⟩, ⟨2, 0⟩, ⟨1, 0⟩, ⟨2, 0⟩, ⟨3, 0⟩]
        [⟨1, "defi", 50, 0⟩, ⟨2, "defi", 40, 0⟩, ⟨3, "nft", 90, 0⟩] = [] ∧
      (⟨3, "nft", 90, 0⟩ : TrendTool) ∈
        ([⟨1, "defi", 50, 0⟩, ⟨2, "defi", 40, 0⟩, ⟨3, "nft", 90, 0⟩] :
          List TrendTool) ∧
      (⟨3, 0⟩ : UsageEvent) ∈ windowEvents 0 Period.day
        [⟨1, 0⟩, ⟨2, 0⟩, ⟨1, 0⟩, ⟨2, 0⟩, ⟨3, 0⟩] :=
  ⟨rfl, by decide, by decide⟩

/-- C9 (amended): the trending query fetches the usage-ranked keys with SQL
LIMIT `limit * 2`, i.e. exactly `min (2·limit) (#usage groups)` keys — at
most `2 × limit` — before the category filter is applied; with a category
filter and `limit ≥ 1`, the first returned tool is an in-category tool with
the highest trendingScore among the in-category tools whose ids are inside
those fetched keys.  An in-category tool outside the fetched keys can still
be crowded out entirely (see the counterexample), so the "never prevents"
part of the original claim must be restricted to the fetched keys. -/
theorem claim_C9_overfetch_amended (now : Int) (period : Period) (limit : Nat)
    (c : String) (events : List UsageEvent) (tools : List TrendTool) :
    (trendingData now period limit events).length =
      min (limit * 2) (groupCounts (windowEvents now period events)).length ∧
    (∀ t : TrendTool, t ∈ tools → t.category = c →
      t.id ∈ (trendingData now period limit events).map Prod.fst →
      1 ≤ limit →
      ∃ x, (trendingGET now period limit (some c) events tools).head? = some x ∧
        x.tool.category = c ∧
        (usageLookup (trendingData now period limit events) t.id : Int) +
          t.totalScore ≤ x.trendingScore) := by
  constructor
  · unfold trendingData
    rw [List.length_take, (List.mergeSort_perm _ countLe).length_eq]
  · intro t htools hcat hkey hlim
    have htdne : trendingData now period limit events ≠ [] := by
      intro h0
      rw [h0] at hkey
      cases hkey
    have hGET : trendingGET now period limit (some c) events tools
        = rankedTools (trendingData now period limit events) limit (some c) tools := by
      unfold trendingGET
      rw [if_neg (by simpa using htdne)]
    have hfet : t ∈ tools.filter (fun u =>
        ((trendingData now period limit events).map Prod.fst).contains u.id) := by
      refine List.mem_filter.mpr ⟨htools, ?_⟩
      simpa using hkey
    have hfil : t ∈ categoryFilter (some c)
        (tools.filter (fun u =>
          ((trendingData now period limit events).map Prod.fst).contains u.id)) := by
      refine List.mem_filter.mpr ⟨hfet, ?_⟩
      simp [hcat]
    have hmemL : mkTrending (trendingData now period limit events) t ∈
        (categoryFilter (some c)
          (tools.filter (fun u =>
            ((trendingData now period limit events).map Prod.fst).contains u.id))).map
          (mkTrending (trendingData now period limit events)) :=
      List.mem_map_of_mem _ hfil
    have hmemS : mkTrending (trendingData now period limit events) t ∈
        ((categoryFilter (some c)
          (tools.filter (fun u =>
            ((trendingData now period limit events).map Prod.fst).contains u.id))).map
          (mkTrending (trendingData now period limit events))).mergeSort trendLe :=
      ((List.mergeSort_perm _ trendLe).mem_iff).mpr hmemL
    cases hS : ((categoryFilter (some c)
        (tools.filter (fun u =>
          ((trendingData now period limit events).map Prod.fst).contains u.id))).map
        (mkTrending (trendingData now period limit events))).mergeSort trendLe with
    | nil =>
      rw [hS] at hmemS
      cases hmemS
    | cons h tl =>
      refine ⟨h, ?_, ?_, ?_⟩
      · rw [hGET]
        unfold rankedTools
        dsimp only
        rw [hS]
        obtain ⟨k, hk⟩ : ∃ k, limit = k + 1 := ⟨limit - 1, by omega⟩
        rw [hk]
        rfl
      · have hh : h ∈ (categoryFilter (some c)
            (tools.filter (fun u =>
              ((trendingData now period limit events).map Prod.fst).contains u.id))).map
            (mkTrending (trendingData now period limit events)) := by
          refine ((List.mergeSort_perm _ trendLe).mem_iff).mp ?_
          rw [hS]
          exact List.mem_cons_self h tl
        rcases List.mem_map.mp hh with ⟨u, hu, rfl⟩
        exact eq_of_beq (List.mem_filter.mp hu).2
      · have hpw := List.sorted_mergeSort trendLe_trans trendLe_total
          ((categoryFilter (some c)
            (tools.filter (fun u =>
              ((trendingData now period limit events).map Prod.fst).contains u.id))).map
            (mkTrending (trendingData now period limit events)))
        rw [hS] at hpw
        have hrel := (List.pairwise_cons.mp hpw).1
        rw [hS] at hmemS
        rcases List.mem_cons.mp hmemS with hEq | hmem
        · rw [← hEq]
          simp [mkTrending, jsOrZero_eq]
        · have hb := of_decide_eq_true (hrel _ hmem)
          simpa [mkTrending, jsOrZero_eq] using hb

unseal List.merge List.mergeSort in
/-- Witness for C9 (amended): the "nft" tool's id is among the fetched
keys (the window has only two usage groups), so something is returned. -/
theorem claim_C9_overfetch_amended_witness :
    trendingGET 0 Period.day 1 (some "nft") [⟨1, 0⟩, ⟨1, 0⟩, ⟨3, 0⟩]
        [⟨1, "defi", 50, 0⟩, ⟨3, "nft", 90, 0⟩] ≠ [] ∧
      (trendingData 0 Period.day 1 [⟨1, 0⟩, ⟨1, 0⟩, ⟨3, 0⟩]).length =
        min 2 (groupCounts (windowEvents 0 Period.day
          [⟨1, 0⟩, ⟨1, 0⟩, ⟨3, 0⟩])).length := by
  constructor
  · obtain ⟨x, hx, -, -⟩ :=
      (claim_C9_overfetch_amended 0 Period.day 1 "nft" [⟨1, 0⟩, ⟨1, 0⟩, ⟨3, 0⟩]
        [⟨1, "defi", 50, 0⟩, ⟨3, "nft", 90, 0⟩]).2 ⟨3, "nft", 90, 0⟩ (by decide) rfl
        (by decide) (by decide)
    intro h0
    rw [h0] at hx
    simp at hx
  · exact (claim_C9_overfetch_amended 0 Period.day 1 "nft" [⟨1, 0⟩, ⟨1, 0⟩, ⟨3, 0⟩]
      [⟨1, "defi", 50, 0⟩, ⟨3, "nft", 90, 0⟩]).1

end LyraRegistry
